import Mathlib

/-!
Shallow embedding of the graphycs timeline-composition and segment-scheduling
code: the scene planner and duration resolver of the Remotion composition
(`src/remotion/Composition.tsx` and the earlier revision of the same component),
the export-side `calculateMetadata` (`src/remotion/index.tsx`), the preview-side
`durationInFrames` (`src/app/page.tsx`), and the narration segmenter
(`generateSegments` in the audio-segments router).  Seconds are modelled as
exact rationals, frame counts as integers; JavaScript `Math.round`/`Math.ceil`
and out-of-range array indexing are modelled explicitly.
-/

namespace Graphycs

/-- JavaScript array indexing `a[i]`: `undefined` (here `none`) for a negative
or out-of-range index. -/
def jsIndex {α : Type} (l : List α) (i : ℤ) : Option α :=
  if h : 0 ≤ i ∧ i.toNat < l.length then some (l.get ⟨i.toNat, h.2⟩) else none

/-- JavaScript `Math.round`: nearest integer, halves toward positive infinity. -/
def jsRound (q : ℚ) : ℤ := ⌊q + 1/2⌋

/-- The fixed frame rate used by every code path (`const fps = 30`). -/
def fps : ℚ := 30

/-- `Module = { title: string; points: string[] }`. -/
structure Module where
  title : String
  points : List String
deriving DecidableEq

/-- One quiz entry `{ q, a, correct }` of the storyboard. -/
structure QuizItem where
  q : String
  a : List String
  correct : ℤ
deriving DecidableEq

/-- The validated storyboard shape. -/
structure Storyboard where
  title : String
  language : String
  intro : String
  overview : List String
  modules : List Module
  summary : String
  quiz : List QuizItem
deriving DecidableEq

/-- `Segment = { text, start, duration, url }`, seconds as exact rationals. -/
structure Segment where
  text : String
  start : ℚ
  duration : ℚ
  url : String
deriving DecidableEq

namespace Page

/-- Fallback frame count of the interactive preview
(`page.tsx`: `(story?.modules?.length || 3) * 4 * fps`); a module count of `0`
is falsy in JavaScript, so it falls back to `3`. -/
def fallbackFrames (story : Storyboard) : ℚ :=
  (if story.modules.length = 0 then 3 else (story.modules.length : ℚ)) * 4 * fps

/-- The `durationInFrames` passed to the `Player`
(`page.tsx`: `audioSeconds ? Math.ceil(audioSeconds * fps) : fallbackFrames`);
`0` seconds is falsy. -/
def durationInFrames (story : Storyboard) (audioSeconds : Option ℚ) : ℚ :=
  match audioSeconds with
  | some seconds =>
      if seconds = 0 then fallbackFrames story else ((⌈seconds * fps⌉ : ℤ) : ℚ)
  | none => fallbackFrames story

end Page

namespace Meta

/-- The crossfade handle constant of `calculateMetadata` (`const handle = 12`). -/
def handle : ℚ := 12

/-- `baseDurations` of `calculateMetadata`:
`[fps*4, fps*4, ...modules.map(() => fps*4.5), fps*5]`. -/
def baseDurations (modules : List Module) : List ℚ :=
  fps * 4 :: fps * 4 :: (modules.map (fun _ => fps * 4.5) ++ [fps * 5])

/-- `runtimeDurations` of `calculateMetadata`: every base duration loses the
handle except the final one. -/
def runtimeDurations (durations : List ℚ) : List ℚ :=
  durations.mapIdx (fun idx duration =>
    if idx = durations.length - 1 then duration else duration - handle)

/-- Fallback branch of `calculateMetadata`: the runtime durations summed by
`reduce((acc, val) => acc + val, 0)`. -/
def fallbackDuration (modules : List Module) : ℚ :=
  (runtimeDurations (baseDurations modules)).foldl (· + ·) 0

/-- Segment branch of `calculateMetadata`:
`Math.ceil(segments.reduce((acc, seg) => Math.max(acc, seg.start + seg.duration), 0) * fps) + 30`. -/
def segmentsDuration (segments : List Segment) : ℚ :=
  ((⌈(segments.foldl (fun acc seg => max acc (seg.start + seg.duration)) 0) * fps⌉ : ℤ) : ℚ) + 30

/-- `calculateMetadata`'s `durationInFrames`: segment-driven when the segment
list is present and non-empty, otherwise the fallback formula. -/
def durationInFrames (story : Storyboard) (segments : Option (List Segment)) : ℚ :=
  match segments with
  | some l => if 0 < l.length then segmentsDuration l else fallbackDuration story.modules
  | none => fallbackDuration story.modules

end Meta

namespace Composition

/-- Crossfade handle of the composition component (`const HANDLE = 12`). -/
def HANDLE : ℚ := 12

/-- `introBroll = brollUrls?.[0]`. -/
def introBroll (brollUrls : Option (List String)) : Option String :=
  match brollUrls with
  | some l => jsIndex l 0
  | none => none

/-- `moduleClip = (index) => brollUrls ? brollUrls[index + 1] : undefined`. -/
def moduleClip (brollUrls : Option (List String)) (index : ℕ) : Option String :=
  match brollUrls with
  | some l => jsIndex l ((index : ℤ) + 1)
  | none => none

/-- `summaryBroll = brollUrls ? brollUrls[brollUrls.length - 1] : undefined`. -/
def summaryBroll (brollUrls : Option (List String)) : Option String :=
  match brollUrls with
  | some l => jsIndex l ((l.length : ℤ) - 1)
  | none => none

/-- The scene id of a `scenePlan` entry: `"intro"`, `"overview"`,
`"module-i"`, or `"summary"`. -/
inductive SceneKind where
  | intro
  | overview
  | module (index : ℕ)
  | summary
deriving DecidableEq

/-- `scene.id.startsWith("module")`. -/
def SceneKind.isModule : SceneKind → Bool
  | .module _ => true
  | _ => false

/-- One entry of the `scenePlan` array. -/
structure Scene where
  kind : SceneKind
  tag : String
  kicker : String
  title : String
  body : Option String
  bullets : List String
  broll : Option String
deriving DecidableEq

/-- The per-module entry of the `scenePlan` array
(`storyboard.modules.map((module, index) => ...)`). -/
def moduleScene (brollUrls : Option (List String)) (index : ℕ) (m : Module) : Scene :=
  { kind := .module index, tag := s!"Module {index + 1}", kicker := "Key decisions",
    title := m.title, body := none, bullets := m.points,
    broll := moduleClip brollUrls index }

/-- The `scenePlan` array of the composition: an intro card, an overview card,
one card per module, and a summary card. -/
def scenePlan (story : Storyboard) (brollUrls : Option (List String)) : List Scene :=
  { kind := .intro, tag := "Executive Briefing", kicker := "Why it matters",
    title := story.title, body := some story.intro, bullets := story.overview,
    broll := introBroll brollUrls } ::
  { kind := .overview, tag := "Module Overview", kicker := "Learning path",
    title := "What we cover next", body := some "High-level modules to align your team.",
    bullets := story.overview,
    broll := (moduleClip brollUrls 0).orElse (fun _ => introBroll brollUrls) } ::
  (story.modules.mapIdx (moduleScene brollUrls) ++
  [{ kind := .summary, tag := "Summary", kicker := "Takeaways",
     title := "Commitment to action", body := some story.summary,
     bullets := story.quiz.map (fun q => q.q),
     broll := summaryBroll brollUrls }])

/-- Per-scene base duration, branching on the scene id exactly as the source
does (`intro` 4 s, ids starting with `module` 4.5 s, `summary` 5 s, else 4 s). -/
def sceneDuration (scene : Scene) : ℚ :=
  if scene.kind = SceneKind.intro then fps * 4
  else if scene.kind.isModule then fps * 4.5
  else if scene.kind = SceneKind.summary then fps * 5
  else fps * 4

/-- `sceneDurations = scenePlan.map(...)`. -/
def sceneDurations (story : Storyboard) (brollUrls : Option (List String)) : List ℚ :=
  (scenePlan story brollUrls).map sceneDuration

/-- `runtimeDurations`: every scene duration loses the handle except the
final one. -/
def runtimeDurations (durations : List ℚ) : List ℚ :=
  durations.mapIdx (fun index duration =>
    if index = durations.length - 1 then duration else duration - HANDLE)

/-- The `reduce`-and-push loop that turns runtime durations into absolute
scene start offsets (running partial sums seeded by `acc`). -/
def offsetsFrom (acc : ℚ) : List ℚ → List ℚ
  | [] => []
  | duration :: rest => acc :: offsetsFrom (acc + duration) rest

/-- `sceneOffsets`: each fallback scene's absolute start frame. -/
def sceneOffsets (story : Storyboard) (brollUrls : Option (List String)) : List ℚ :=
  offsetsFrom 0 (runtimeDurations (sceneDurations story brollUrls))

/-- One `Sequence` of the composition's segment-driven branch: rounded start
frame and duration, the segment's audio, and the `scenePlan` descriptor chosen
by `Math.min(idx, scenePlan.length - 1)`. -/
structure SegPlaced where
  fromFrame : ℤ
  durationInFrames : ℤ
  audio : String
  sceneIndex : ℕ
  scene : Option Scene
deriving DecidableEq

/-- The segment-driven branch of the composition
(`segments.map((segment, idx) => ...)`): one `Sequence` per segment at the
segment's own rounded timing, rendering `scenePlan[Math.min(idx,
scenePlan.length - 1)]` with the segment's text as its single bullet. -/
def segmentPlan (story : Storyboard) (brollUrls : Option (List String))
    (segments : List Segment) : List SegPlaced :=
  segments.mapIdx (fun idx s =>
    { fromFrame := jsRound (s.start * fps),
      durationInFrames := jsRound (s.duration * fps),
      audio := s.url,
      sceneIndex := min idx ((scenePlan story brollUrls).length - 1),
      scene := jsIndex (scenePlan story brollUrls)
        ((min idx ((scenePlan story brollUrls).length - 1) : ℕ) : ℤ) })

end Composition

namespace CompositionV1

/-- Slide type taken by `getBrollForSlide` in the earlier revision of the
composition component (`'intro' | 'module' | 'summary'`). -/
inductive SlideType where
  | intro
  | module
  | summary
deriving DecidableEq

/-- `getBrollForSlide`: positional clip lookup — intro at index 0, summary at
index `length - 1`, module `i` at index `1 + i`; `undefined` when no clip list
is given or the index has no entry. -/
def getBrollForSlide (brollUrls : Option (List String)) (slideType : SlideType)
    (moduleIndex : ℤ := 0) : Option String :=
  match brollUrls with
  | none => none
  | some l =>
      let clipIndex : ℤ :=
        match slideType with
        | .intro => 0
        | .summary => (l.length : ℤ) - 1
        | .module => 1 + moduleIndex
      jsIndex l clipIndex

/-- `moduleIdx` computed for segment `i`:
`i < overview.length ? 0 : Math.min(i - overview.length, modules.length - 1)`. -/
def moduleIdx (story : Storyboard) (i : ℕ) : ℤ :=
  if i < story.overview.length then 0
  else min ((i : ℤ) - story.overview.length) ((story.modules.length : ℤ) - 1)

/-- The scene rendered inside a segment's `Sequence` in segment-driven mode. -/
inductive SegScene where
  | overviewScene (points : List String) (broll : Option String)
  | moduleScene (index : ℤ) (title : String) (points : List String)
      (broll : Option String)
  | summaryScene (text : String) (broll : Option String)
deriving DecidableEq

/-- The module index a `SegScene` carries, when it is a module scene. -/
def SegScene.moduleIndexOf : SegScene → Option ℤ
  | .moduleScene index _ _ _ => some index
  | _ => none

/-- Scene selection for segment `i`: the overview range renders the segment's
own text, the module range renders the clamped module (with the `|| "Modul"`
fallbacks for a missing module), everything past it renders the summary. -/
def segScene (story : Storyboard) (brollUrls : Option (List String)) (i : ℕ)
    (s : Segment) : SegScene :=
  if i < story.overview.length then
    .overviewScene [s.text] (getBrollForSlide brollUrls .intro 0)
  else if i < story.overview.length + story.modules.length then
    .moduleScene (moduleIdx story i)
      (match jsIndex story.modules (moduleIdx story i) with
       | some m => if m.title = "" then "Modul" else m.title
       | none => "Modul")
      (match jsIndex story.modules (moduleIdx story i) with
       | some m => m.points
       | none => [s.text])
      (getBrollForSlide brollUrls .module (moduleIdx story i))
  else
    .summaryScene story.summary (getBrollForSlide brollUrls .summary 0)

/-- Content of one `Sequence` emitted by the segment-driven branch. -/
inductive SegContent where
  | introCard (title : String) (broll : Option String)
  | narrated (audio : String) (scene : SegScene)
deriving DecidableEq

/-- One placed `Sequence`: absolute start frame and duration in frames. -/
structure Placed where
  fromFrame : ℤ
  durationInFrames : ℤ
  content : SegContent
deriving DecidableEq

/-- The segment-driven branch of the earlier composition: one synthetic intro
`Sequence` at frame 0 lasting `Math.round(2 * fps)` frames, then one
`Sequence` per segment at the segment's own rounded timing. -/
def segmentPlan (story : Storyboard) (brollUrls : Option (List String))
    (segments : List Segment) : List Placed :=
  { fromFrame := 0, durationInFrames := jsRound (2 * fps),
    content := .introCard story.title (getBrollForSlide brollUrls .intro 0) } ::
  segments.mapIdx (fun i s =>
    { fromFrame := jsRound (s.start * fps),
      durationInFrames := jsRound (s.duration * fps),
      content := .narrated s.url (segScene story brollUrls i s) })

end CompositionV1

namespace AudioSegments

/-- The 300 ms pause inserted between narration segments
(`const padding = 0.3`). -/
def padding : ℚ := 0.3

/-- One per-sentence TTS result consumed by the accumulation loop of
`generateSegments`: the sentence, the audio duration measured from the fetched
buffer, and its data url.  The network fetch and the metadata probe themselves
are external collaborators. -/
structure Piece where
  sentence : String
  duration : ℚ
  url : String
deriving DecidableEq

/-- The `cumulativeTime` accumulation loop of `generateSegments`: each
sentence becomes a segment starting at the running time, which then advances
by the segment's duration plus the padding. -/
def buildSegments (cumulativeTime : ℚ) : List Piece → List Segment
  | [] => []
  | piece :: rest =>
      { text := piece.sentence, start := cumulativeTime,
        duration := piece.duration, url := piece.url } ::
        buildSegments (cumulativeTime + piece.duration + padding) rest

/-- `generateSegments`: the loop starts with `cumulativeTime = 0`. -/
def generateSegments (pieces : List Piece) : List Segment :=
  buildSegments 0 pieces

end AudioSegments

end Graphycs

namespace Graphycs

/-- A concrete segment used to exercise the segment-driven paths. -/
def sampleSegment : Segment where
  text := "x"
  start := 0
  duration := 1
  url := "u"

/-- A concrete storyboard with three overview points and three modules. -/
def sampleStoryboard : Storyboard where
  title := "GDPR Basics"
  language := "de"
  intro := "Why data protection matters"
  overview := ["Scope", "Lawful basis", "Incidents"]
  modules :=
    [ { title := "Data we collect", points := ["Personal data", "Special categories"] },
      { title := "Legal grounds", points := ["Consent", "Contract"] },
      { title := "Incident response", points := ["Report fast"] } ]
  summary := "Minimise, document, train."
  quiz := [ { q := "What is personal data?", a := ["Any info", "Only names"], correct := 0 } ]

/-- A degenerate storyboard with no modules at all. -/
def emptyStoryboard : Storyboard where
  title := "Empty"
  language := "en"
  intro := "Nothing here"
  overview := []
  modules := []
  summary := "Done"
  quiz := []

end Graphycs

namespace Graphycs

namespace Composition

theorem runtimeDurations_length (l : List ℚ) :
    (runtimeDurations l).length = l.length := by
  simp [runtimeDurations]

theorem runtimeDurations_getD (l : List ℚ) (k : ℕ) (hk : k < l.length) :
    (runtimeDurations l).getD k 0 =
      if k = l.length - 1 then l.getD k 0 else l.getD k 0 - HANDLE := by
  rw [List.getD_eq_getElem _ _ (by simpa [runtimeDurations] using hk),
    List.getD_eq_getElem _ _ hk]
  simp [runtimeDurations]

theorem offsetsFrom_length (a : ℚ) (l : List ℚ) :
    (offsetsFrom a l).length = l.length := by
  induction l generalizing a with
  | nil => rfl
  | cons d rest ih => simp [offsetsFrom, ih]

theorem offsetsFrom_getD_zero (a : ℚ) (l : List ℚ) (h : l ≠ []) :
    (offsetsFrom a l).getD 0 0 = a := by
  cases l with
  | nil => exact absurd rfl h
  | cons d rest => rfl

theorem offsetsFrom_getD_succ (l : List ℚ) (a : ℚ) (k : ℕ) (h : k + 1 < l.length) :
    (offsetsFrom a l).getD (k + 1) 0 =
      (offsetsFrom a l).getD k 0 + l.getD k 0 := by
  induction l generalizing a k with
  | nil => simp at h
  | cons d rest ih =>
    cases k with
    | zero =>
      have hrest : rest ≠ [] := by
        intro hr
        rw [hr] at h
        simp at h
      simp only [offsetsFrom, List.getD_cons_succ, List.getD_cons_zero]
      rw [offsetsFrom_getD_zero _ _ hrest]
    | succ k' =>
      have h' : k' + 1 < rest.length := by
        simpa using h
      simp only [offsetsFrom, List.getD_cons_succ]
      rw [ih _ _ h']

theorem foldl_add_shift (l : List ℚ) (x : ℚ) :
    l.foldl (· + ·) x = x + l.foldl (· + ·) 0 := by
  induction l generalizing x with
  | nil => simp
  | cons d rest ih =>
    rw [List.foldl_cons, List.foldl_cons, ih (x + d), ih (0 + d)]
    ring

theorem offsetsFrom_getLast_add (l : List ℚ) (a : ℚ) (h : l ≠ []) :
    (offsetsFrom a l).getD (l.length - 1) 0 + l.getD (l.length - 1) 0 =
      a + l.foldl (· + ·) 0 := by
  induction l generalizing a with
  | nil => exact absurd rfl h
  | cons d rest ih =>
    by_cases hr : rest = []
    · subst hr
      simp [offsetsFrom]
    · obtain ⟨n, hn⟩ : ∃ n, rest.length = n + 1 :=
        ⟨rest.length - 1, (Nat.succ_pred_eq_of_pos (List.length_pos.mpr hr)).symm⟩
      have hlen : (d :: rest).length - 1 = n + 1 := by simp [hn]
      rw [hlen]
      show (a :: offsetsFrom (a + d) rest).getD (n + 1) 0 + (d :: rest).getD (n + 1) 0 = _
      rw [List.getD_cons_succ, List.getD_cons_succ]
      have hrec := ih (a + d) hr
      rw [hn] at hrec
      simp only [Nat.add_sub_cancel] at hrec
      rw [hrec, List.foldl_cons, foldl_add_shift rest (0 + d)]
      ring

theorem map_mapIdx_proj {α β γ : Type} (f : ℕ → α → β) (proj : β → γ) (g : ℕ → γ)
    (hp : ∀ i a, proj (f i a) = g i) (l : List α) :
    (l.mapIdx f).map proj = (List.range l.length).map g := by
  rw [List.mapIdx_eq_enum_map, List.map_map]
  have h1 : (proj ∘ Function.uncurry f) = (g ∘ Prod.fst) := by
    funext p
    exact hp p.1 p.2
  rw [h1, ← List.map_map, List.enum_map_fst]

theorem scenePlan_length (story : Storyboard) (brollUrls : Option (List String)) :
    (scenePlan story brollUrls).length = story.modules.length + 3 := by
  simp [scenePlan]

theorem scenePlan_map_kind (story : Storyboard) (brollUrls : Option (List String)) :
    (scenePlan story brollUrls).map Scene.kind =
      SceneKind.intro :: SceneKind.overview ::
        ((List.range story.modules.length).map SceneKind.module ++
          [SceneKind.summary]) := by
  simp only [scenePlan, List.map_cons, List.map_append, List.map_nil]
  rw [map_mapIdx_proj (moduleScene brollUrls) Scene.kind SceneKind.module
    (fun i a => rfl)]

theorem sceneDurations_eq (story : Storyboard) (brollUrls : Option (List String)) :
    sceneDurations story brollUrls =
      fps * 4 :: fps * 4 ::
        (List.replicate story.modules.length (fps * 4.5) ++ [fps * 5]) := by
  have hmod : ∀ (i : ℕ) (m : Module),
      sceneDuration (moduleScene brollUrls i m) = fps * 4.5 := by
    intro i m
    simp [sceneDuration, moduleScene, SceneKind.isModule]
  simp only [sceneDurations, scenePlan, List.map_cons, List.map_append, List.map_nil]
  rw [map_mapIdx_proj (moduleScene brollUrls) sceneDuration (fun _ => fps * 4.5) hmod]
  simp [sceneDuration, SceneKind.isModule, List.map_const', fps]

theorem sceneDurations_length (story : Storyboard) (brollUrls : Option (List String)) :
    (sceneDurations story brollUrls).length = story.modules.length + 3 := by
  rw [sceneDurations_eq]
  simp

theorem sceneOffsets_length (story : Storyboard) (brollUrls : Option (List String)) :
    (sceneOffsets story brollUrls).length = story.modules.length + 3 := by
  rw [sceneOffsets, offsetsFrom_length, runtimeDurations_length, sceneDurations_length]

end Composition

/-- The copy of the runtime-duration formula in `calculateMetadata` agrees
definitionally with the composition's own copy. -/
theorem meta_runtimeDurations_eq :
    Meta.runtimeDurations = Composition.runtimeDurations := rfl

/-- `calculateMetadata`'s base durations coincide with the composition plan's
scene durations for the same storyboard. -/
theorem meta_baseDurations_eq (story : Storyboard) (brollUrls : Option (List String)) :
    Meta.baseDurations story.modules = Composition.sceneDurations story brollUrls := by
  rw [Composition.sceneDurations_eq]
  simp [Meta.baseDurations, List.map_const']

/-- C1: the interactive preview's `durationInFrames` and the export path's
`calculateMetadata` disagree on the very same input: for the sample storyboard
with three modules, no segments and no measured audio, the preview computes
`3 * 4 * 30 = 360` frames while the export computes
`(120-12) + (120-12) + 3*(135-12) + 150 = 735` frames. -/
theorem graphycs_c1_divergence :
    Page.durationInFrames sampleStoryboard none = 360 ∧
    Meta.durationInFrames sampleStoryboard none = 735 ∧
    Page.durationInFrames sampleStoryboard none ≠
      Meta.durationInFrames sampleStoryboard none := by
  refine ⟨?_, ?_, ?_⟩ <;>
    simp [Page.durationInFrames, Page.fallbackFrames, Meta.durationInFrames,
      Meta.fallbackDuration, Meta.runtimeDurations, Meta.baseDurations, Meta.handle,
      sampleStoryboard, fps, List.mapIdx, List.mapIdx.go] <;> norm_num

end Graphycs

namespace Graphycs

/-- C2 (amended): in fallback mode the `scenePlan` contains exactly
`modules.length + 3` scenes — intro, overview, one per module, summary — with
base durations intro = 4 s, overview = 4 s, module = 4.5 s, summary = 5 s at
the fixed frame rate. -/
theorem graphycs_c2 (story : Storyboard) (brollUrls : Option (List String)) :
    (Composition.scenePlan story brollUrls).length = story.modules.length + 3 ∧
    (Composition.scenePlan story brollUrls).map Composition.Scene.kind =
      Composition.SceneKind.intro :: Composition.SceneKind.overview ::
        ((List.range story.modules.length).map Composition.SceneKind.module ++
          [Composition.SceneKind.summary]) ∧
    Composition.sceneDurations story brollUrls =
      fps * 4 :: fps * 4 ::
        (List.replicate story.modules.length (fps * 4.5) ++ [fps * 5]) :=
  ⟨Composition.scenePlan_length story brollUrls,
   Composition.scenePlan_map_kind story brollUrls,
   Composition.sceneDurations_eq story brollUrls⟩

/-- C2 counterexample: for the sample storyboard with 3 modules the fallback
plan has 6 scenes, not `3 + 2 = 5` — the claimed count misses the overview
scene. -/
theorem graphycs_c2_counterexample :
    (Composition.scenePlan sampleStoryboard none).length ≠
      sampleStoryboard.modules.length + 2 := by
  simp [Composition.scenePlan, sampleStoryboard]

/-- C5: in fallback mode consecutive scenes overlap by exactly the 12-frame
handle — scene `k+1` starts strictly before scene `k` ends, the overlap is
`HANDLE`, and the first scene starts at frame 0. -/
theorem graphycs_c5 (story : Storyboard) (brollUrls : Option (List String)) (k : ℕ)
    (h : k + 1 < (Composition.sceneOffsets story brollUrls).length) :
    (Composition.sceneOffsets story brollUrls).getD 0 0 = 0 ∧
    (Composition.sceneOffsets story brollUrls).getD (k + 1) 0 <
      (Composition.sceneOffsets story brollUrls).getD k 0 +
        (Composition.sceneDurations story brollUrls).getD k 0 ∧
    (Composition.sceneOffsets story brollUrls).getD k 0 +
        (Composition.sceneDurations story brollUrls).getD k 0 -
      (Composition.sceneOffsets story brollUrls).getD (k + 1) 0 =
        Composition.HANDLE := by
  have hlen : (Composition.sceneOffsets story brollUrls).length =
      (Composition.sceneDurations story brollUrls).length := by
    rw [Composition.sceneOffsets, Composition.offsetsFrom_length,
      Composition.runtimeDurations_length]
  have hk1 : k + 1 <
      (Composition.runtimeDurations (Composition.sceneDurations story brollUrls)).length := by
    rw [Composition.runtimeDurations_length, ← hlen]
    exact h
  have hkd : k < (Composition.sceneDurations story brollUrls).length := by
    rw [Composition.runtimeDurations_length] at hk1
    omega
  have hne : Composition.runtimeDurations (Composition.sceneDurations story brollUrls) ≠ [] := by
    intro hnil
    rw [hnil] at hk1
    simp at hk1
  have h0 : (Composition.sceneOffsets story brollUrls).getD 0 0 = 0 :=
    Composition.offsetsFrom_getD_zero 0 _ hne
  have hsucc : (Composition.sceneOffsets story brollUrls).getD (k + 1) 0 =
      (Composition.sceneOffsets story brollUrls).getD k 0 +
        (Composition.runtimeDurations (Composition.sceneDurations story brollUrls)).getD k 0 :=
    Composition.offsetsFrom_getD_succ _ 0 k hk1
  have hrt : (Composition.runtimeDurations (Composition.sceneDurations story brollUrls)).getD k 0 =
      (Composition.sceneDurations story brollUrls).getD k 0 - Composition.HANDLE := by
    rw [Composition.runtimeDurations_getD _ k hkd, if_neg]
    rw [Composition.runtimeDurations_length] at hk1
    omega
  refine ⟨h0, ?_, ?_⟩
  · rw [hsucc, hrt]
    have : (0 : ℚ) < Composition.HANDLE := by norm_num [Composition.HANDLE]
    linarith
  · rw [hsucc, hrt]
    ring

/-- C5 witness: for the sample storyboard the first two fallback scenes
overlap by exactly 12 frames. -/
theorem graphycs_c5_witness :
    0 + 1 < (Composition.sceneOffsets sampleStoryboard none).length ∧
    ((Composition.sceneOffsets sampleStoryboard none).getD 0 0 = 0 ∧
     (Composition.sceneOffsets sampleStoryboard none).getD (0 + 1) 0 <
       (Composition.sceneOffsets sampleStoryboard none).getD 0 0 +
         (Composition.sceneDurations sampleStoryboard none).getD 0 0 ∧
     (Composition.sceneOffsets sampleStoryboard none).getD 0 0 +
         (Composition.sceneDurations sampleStoryboard none).getD 0 0 -
       (Composition.sceneOffsets sampleStoryboard none).getD (0 + 1) 0 =
         Composition.HANDLE) :=
  ⟨by rw [Composition.sceneOffsets_length]; norm_num [sampleStoryboard],
   graphycs_c5 sampleStoryboard none 0
     (by rw [Composition.sceneOffsets_length]; norm_num [sampleStoryboard])⟩

/-- C6: in fallback mode the export duration resolver's total equals the last
planned scene's start frame plus its full base duration. -/
theorem graphycs_c6 (story : Storyboard) (brollUrls : Option (List String)) :
    Meta.durationInFrames story none =
      (Composition.sceneOffsets story brollUrls).getD
          ((Composition.sceneOffsets story brollUrls).length - 1) 0 +
        (Composition.sceneDurations story brollUrls).getD
          ((Composition.sceneDurations story brollUrls).length - 1) 0 := by
  have hne : Composition.sceneDurations story brollUrls ≠ [] := by
    intro hnil
    have := Composition.sceneDurations_length story brollUrls
    rw [hnil] at this
    simp at this
  have hrtne : Composition.runtimeDurations (Composition.sceneDurations story brollUrls) ≠ [] := by
    intro hnil
    have := congrArg List.length hnil
    rw [Composition.runtimeDurations_length] at this
    exact hne (List.length_eq_zero.mp this)
  have hrtlen :
      (Composition.runtimeDurations (Composition.sceneDurations story brollUrls)).length =
        (Composition.sceneDurations story brollUrls).length :=
    Composition.runtimeDurations_length _
  have hofflen : (Composition.sceneOffsets story brollUrls).length =
      (Composition.sceneDurations story brollUrls).length := by
    rw [Composition.sceneOffsets, Composition.offsetsFrom_length, hrtlen]
  have hlast := Composition.offsetsFrom_getLast_add
    (Composition.runtimeDurations (Composition.sceneDurations story brollUrls)) 0 hrtne
  have hlastpos : 0 < (Composition.sceneDurations story brollUrls).length :=
    List.length_pos.mpr hne
  have hrtlast :
      (Composition.runtimeDurations (Composition.sceneDurations story brollUrls)).getD
          ((Composition.sceneDurations story brollUrls).length - 1) 0 =
        (Composition.sceneDurations story brollUrls).getD
          ((Composition.sceneDurations story brollUrls).length - 1) 0 := by
    rw [Composition.runtimeDurations_getD _ _ (by omega), if_pos rfl]
  have hmeta : Meta.durationInFrames story none =
      (Composition.runtimeDurations (Composition.sceneDurations story brollUrls)).foldl
        (· + ·) 0 := by
    show Meta.fallbackDuration story.modules = _
    rw [Meta.fallbackDuration, meta_runtimeDurations_eq, meta_baseDurations_eq story brollUrls]
  rw [hmeta]
  rw [hrtlen, hrtlast] at hlast
  rw [Composition.sceneOffsets, Composition.offsetsFrom_length, hrtlen]
  linarith [hlast]

/-- C9 (amended): with no modules and no segments the fallback plan still
never fails: it consists of exactly three scenes (intro, overview, summary)
and the declared total duration is the positive value 366 frames. -/
theorem graphycs_c9 (story : Storyboard) (brollUrls : Option (List String))
    (h : story.modules = []) :
    (Composition.scenePlan story brollUrls).map Composition.Scene.kind =
      [Composition.SceneKind.intro, Composition.SceneKind.overview,
        Composition.SceneKind.summary] ∧
    Meta.durationInFrames story none = 366 ∧
    0 < Meta.durationInFrames story none := by
  refine ⟨?_, ?_, ?_⟩
  · rw [Composition.scenePlan_map_kind, h]
    simp
  · show Meta.fallbackDuration story.modules = 366
    rw [h]
    simp [Meta.fallbackDuration, Meta.runtimeDurations, Meta.baseDurations, Meta.handle,
      List.mapIdx, List.mapIdx.go, fps]
    norm_num
  · show (0 : ℚ) < Meta.fallbackDuration story.modules
    rw [h]
    simp [Meta.fallbackDuration, Meta.runtimeDurations, Meta.baseDurations, Meta.handle,
      List.mapIdx, List.mapIdx.go, fps]
    norm_num

/-- C9 witness: the degenerate storyboard with zero modules yields the
three-scene plan and the 366-frame total. -/
theorem graphycs_c9_witness :
    emptyStoryboard.modules = [] ∧
    ((Composition.scenePlan emptyStoryboard none).map Composition.Scene.kind =
      [Composition.SceneKind.intro, Composition.SceneKind.overview,
        Composition.SceneKind.summary] ∧
     Meta.durationInFrames emptyStoryboard none = 366 ∧
     0 < Meta.durationInFrames emptyStoryboard none) :=
  ⟨rfl, graphycs_c9 emptyStoryboard none rfl⟩

/-- C9 counterexample: with zero modules the plan has 3 scenes, not the
claimed 2 — the overview scene is still emitted. -/
theorem graphycs_c9_counterexample :
    (Composition.scenePlan emptyStoryboard none).length ≠ 2 := by
  simp [Composition.scenePlan, emptyStoryboard]

end Graphycs

namespace Graphycs

namespace AudioSegments

theorem buildSegments_chain (pieces : List Piece) (t : ℚ) :
    List.Chain' (fun a b => b.start = a.start + a.duration + padding)
      (buildSegments t pieces) := by
  induction pieces generalizing t with
  | nil => simp [buildSegments]
  | cons p rest ih =>
    cases rest with
    | nil => simp [buildSegments]
    | cons q rest' =>
      have h2 := ih (t + p.duration + padding)
      simp only [buildSegments] at h2 ⊢
      rw [List.chain'_cons]
      exact ⟨rfl, h2⟩

theorem buildSegments_start_le (pieces : List Piece) (t : ℚ)
    (h : ∀ p ∈ pieces, 0 ≤ p.duration) :
    ∀ s ∈ buildSegments t pieces, t ≤ s.start := by
  induction pieces generalizing t with
  | nil =>
    intro s hs
    simp [buildSegments] at hs
  | cons p rest ih =>
    intro s hs
    simp only [buildSegments, List.mem_cons] at hs
    rcases hs with rfl | hs
    · exact le_refl t
    · have hd : 0 ≤ p.duration := h p (by simp)
      have hpad : (0 : ℚ) ≤ padding := by norm_num [padding]
      have htail := ih (t + p.duration + padding)
        (fun q hq => h q (by simp [hq])) s hs
      linarith

theorem buildSegments_pairwise (pieces : List Piece) (t : ℚ)
    (h : ∀ p ∈ pieces, 0 ≤ p.duration) :
    List.Pairwise (fun a b => a.start < b.start ∧ a.start + a.duration < b.start)
      (buildSegments t pieces) := by
  induction pieces generalizing t with
  | nil => simp [buildSegments]
  | cons p rest ih =>
    simp only [buildSegments]
    rw [List.pairwise_cons]
    constructor
    · intro b hb
      have hb' := buildSegments_start_le rest (t + p.duration + padding)
        (fun q hq => h q (by simp [hq])) b hb
      have hd : 0 ≤ p.duration := h p (by simp)
      have hpad : (0 : ℚ) < padding := by norm_num [padding]
      refine ⟨?_, ?_⟩ <;> show _ < b.start <;> · show _ < b.start; linarith
    · exact ih (t + p.duration + padding) (fun q hq => h q (by simp [hq]))

end AudioSegments

namespace Meta

theorem foldl_max_le (l : List ℚ) (c : ℚ) (hc : ∀ x ∈ l, x ≤ c) :
    l.foldl max c = c := by
  induction l generalizing c with
  | nil => rfl
  | cons d rest ih =>
    rw [List.foldl_cons, max_eq_left (hc d (by simp))]
    exact ih c (fun x hx => hc x (by simp [hx]))

theorem foldl_max_eq (l : List ℚ) : ∀ (a m : ℚ), m ∈ l →
    (∀ x ∈ l, x ≤ m) → a ≤ m → l.foldl max a = m := by
  induction l with
  | nil =>
    intro a m hm _ _
    simp at hm
  | cons d rest ih =>
    intro a m hm hb ha
    rw [List.foldl_cons]
    by_cases hmr : m ∈ rest
    · exact ih (max a d) m hmr (fun x hx => hb x (by simp [hx]))
        (max_le ha (hb d (by simp)))
    · have hmd : m = d := by
        rcases List.mem_cons.mp hm with h1 | h1
        · exact h1
        · exact absurd h1 hmr
      subst hmd
      rw [max_eq_right ha]
      exact foldl_max_le rest m (fun x hx => hb x (by simp [hx]))

theorem foldl_max_map (segments : List Segment) : ∀ a : ℚ,
    segments.foldl (fun acc seg => max acc (seg.start + seg.duration)) a =
      (segments.map (fun s => s.start + s.duration)).foldl max a := by
  induction segments with
  | nil => intro a; rfl
  | cons s rest ih =>
    intro a
    rw [List.foldl_cons, List.map_cons, List.foldl_cons, ih]

end Meta

end Graphycs

namespace Graphycs

/-- C7: with a non-empty segment list whose largest `start + duration` is `m`
(all ends non-negative), the export duration resolver returns
`ceil(m * fps)` plus one second of buffer frames (30 frames at 30 fps). -/
theorem graphycs_c7 (story : Storyboard) (segments : List Segment) (m : ℚ)
    (hne : segments ≠ [])
    (hmem : m ∈ segments.map (fun s => s.start + s.duration))
    (hbound : ∀ x ∈ segments.map (fun s => s.start + s.duration), x ≤ m)
    (hpos : 0 ≤ m) :
    Meta.durationInFrames story (some segments) = ((⌈m * fps⌉ : ℤ) : ℚ) + 30 := by
  have hlen : 0 < segments.length := List.length_pos.mpr hne
  show (if 0 < segments.length then Meta.segmentsDuration segments
    else Meta.fallbackDuration story.modules) = _
  rw [if_pos hlen, Meta.segmentsDuration, Meta.foldl_max_map,
    Meta.foldl_max_eq _ 0 m hmem hbound hpos]

/-- C7 witness: a single segment `[start 1 s, duration 2 s]` yields
`ceil(3 * 30) + 30 = 120` frames. -/
theorem graphycs_c7_witness :
    (([⟨"a", 1, 2, "u"⟩] : List Segment) ≠ [] ∧
     (3 : ℚ) ∈ ([⟨"a", 1, 2, "u"⟩] : List Segment).map (fun s => s.start + s.duration) ∧
     (∀ x ∈ ([⟨"a", 1, 2, "u"⟩] : List Segment).map (fun s => s.start + s.duration),
        x ≤ (3 : ℚ)) ∧
     (0 : ℚ) ≤ 3) ∧
    Meta.durationInFrames sampleStoryboard (some [⟨"a", 1, 2, "u"⟩]) =
      ((⌈(3 : ℚ) * fps⌉ : ℤ) : ℚ) + 30 :=
  ⟨⟨by simp, by norm_num, by norm_num, by norm_num⟩,
   graphycs_c7 sampleStoryboard [⟨"a", 1, 2, "u"⟩] 3 (by simp) (by norm_num)
     (by norm_num) (by norm_num)⟩

/-- C8: background-clip lookup is purely positional — on `[A, B, C, D, E]`
the intro gets `A`, module 0 gets `B`, module 2 gets `D`, the summary gets
`E`; a module index past the end of the list, or any lookup in an empty list,
yields no background rather than an error. -/
theorem graphycs_c8 :
    (CompositionV1.getBrollForSlide (some ["A", "B", "C", "D", "E"])
        CompositionV1.SlideType.intro 0 = some "A" ∧
     CompositionV1.getBrollForSlide (some ["A", "B", "C", "D", "E"])
        CompositionV1.SlideType.module 0 = some "B" ∧
     CompositionV1.getBrollForSlide (some ["A", "B", "C", "D", "E"])
        CompositionV1.SlideType.module 2 = some "D" ∧
     CompositionV1.getBrollForSlide (some ["A", "B", "C", "D", "E"])
        CompositionV1.SlideType.summary 0 = some "E") ∧
    (∀ (l : List String) (mi : ℕ), l.length ≤ 1 + mi →
      CompositionV1.getBrollForSlide (some l)
        CompositionV1.SlideType.module (mi : ℤ) = none) ∧
    (∀ t : CompositionV1.SlideType,
      CompositionV1.getBrollForSlide (some ([] : List String)) t 0 = none) := by
  refine ⟨by decide, ?_, ?_⟩
  · intro l mi h
    show jsIndex l (1 + (mi : ℤ)) = none
    rw [jsIndex, dif_neg]
    omega
  · intro t
    cases t <;> decide

/-- C8 witness: a one-clip list has no clip for module 0 (index 1 is out of
range). -/
theorem graphycs_c8_witness :
    (["A"] : List String).length ≤ 1 + 0 ∧
    CompositionV1.getBrollForSlide (some ["A"])
      CompositionV1.SlideType.module ((0 : ℕ) : ℤ) = none :=
  ⟨by decide, graphycs_c8.2.1 ["A"] 0 (by decide)⟩

/-- C3 (amended): in the segment-driven branch, a segment in the module range
`overview.length ≤ i < overview.length + modules.length` is a module scene
whose index is `min(i - overview.length, modules.length - 1)`, which in that
range always equals `i - overview.length` and is never out of range; every
segment at or past `overview.length + modules.length` renders the summary
scene instead. -/
theorem graphycs_c3 (story : Storyboard) (brollUrls : Option (List String))
    (i : ℕ) (s : Segment) (h1 : story.overview.length ≤ i) :
    (i < story.overview.length + story.modules.length →
      (CompositionV1.segScene story brollUrls i s).moduleIndexOf =
          some ((i : ℤ) - story.overview.length) ∧
      CompositionV1.moduleIdx story i =
        min ((i : ℤ) - story.overview.length) ((story.modules.length : ℤ) - 1) ∧
      0 ≤ (i : ℤ) - story.overview.length ∧
      (i : ℤ) - story.overview.length < (story.modules.length : ℤ)) ∧
    (story.overview.length + story.modules.length ≤ i →
      CompositionV1.segScene story brollUrls i s =
        CompositionV1.SegScene.summaryScene story.summary
          (CompositionV1.getBrollForSlide brollUrls
            CompositionV1.SlideType.summary 0)) := by
  have hnot : ¬ i < story.overview.length := not_lt.mpr h1
  constructor
  · intro h2
    have hidx : CompositionV1.moduleIdx story i =
        min ((i : ℤ) - story.overview.length) ((story.modules.length : ℤ) - 1) := by
      rw [CompositionV1.moduleIdx, if_neg hnot]
    have hmin : min ((i : ℤ) - story.overview.length)
        ((story.modules.length : ℤ) - 1) = (i : ℤ) - story.overview.length := by
      apply min_eq_left
      omega
    refine ⟨?_, hidx, by omega, by omega⟩
    rw [CompositionV1.segScene, if_neg hnot, if_pos h2]
    simp [CompositionV1.SegScene.moduleIndexOf, hidx, hmin]
  · intro h2
    rw [CompositionV1.segScene, if_neg hnot, if_neg (by omega)]

/-- C3 witness: for the sample storyboard (3 overview points, 3 modules) the
segment at 0-indexed position 4 is the module scene of module 1. -/
theorem graphycs_c3_witness :
    sampleStoryboard.overview.length ≤ 4 ∧
    (CompositionV1.segScene sampleStoryboard none 4 sampleSegment).moduleIndexOf =
      some ((4 : ℤ) - sampleStoryboard.overview.length) :=
  ⟨by decide,
   ((graphycs_c3 sampleStoryboard none 4 sampleSegment (by decide)).1
     (by decide)).1⟩

/-- C3 counterexample: with 3 overview points and 3 modules, the segments at
0-indexed positions 6 and 7 render the summary scene, not module 2 — the
claimed instance of the clamp is false. -/
theorem graphycs_c3_counterexample :
    CompositionV1.segScene sampleStoryboard none 6 sampleSegment =
      CompositionV1.SegScene.summaryScene sampleStoryboard.summary none ∧
    CompositionV1.segScene sampleStoryboard none 7 sampleSegment =
      CompositionV1.SegScene.summaryScene sampleStoryboard.summary none ∧
    (CompositionV1.segScene sampleStoryboard none 6 sampleSegment).moduleIndexOf
      ≠ some 2 := by
  refine ⟨rfl, rfl, by decide⟩

/-- C4 (amended): the mounted composition's segment-driven branch emits no
synthetic intro scene: the plan is exactly one `Sequence` per segment, the
`k`-th starting at `round(start * fps)` with `round(duration * fps)` frames
and rendering `scenePlan[min(k, scenePlan.length - 1)]`; the intro card is
only the descriptor of segment 0, shown at that segment's own timing. -/
theorem graphycs_c4 (story : Storyboard) (brollUrls : Option (List String))
    (segments : List Segment) (k : ℕ) (h : k < segments.length) :
    (Composition.segmentPlan story brollUrls segments).length = segments.length ∧
    (Composition.segmentPlan story brollUrls segments)[k]? =
      some { fromFrame := jsRound ((segments.get ⟨k, h⟩).start * fps),
             durationInFrames := jsRound ((segments.get ⟨k, h⟩).duration * fps),
             audio := (segments.get ⟨k, h⟩).url,
             sceneIndex := min k ((Composition.scenePlan story brollUrls).length - 1),
             scene := jsIndex (Composition.scenePlan story brollUrls)
               ((min k ((Composition.scenePlan story brollUrls).length - 1) : ℕ) : ℤ) } ∧
    (jsIndex (Composition.scenePlan story brollUrls) 0).map Composition.Scene.kind =
      some Composition.SceneKind.intro := by
  refine ⟨by simp [Composition.segmentPlan], ?_, ?_⟩
  · rw [Composition.segmentPlan, List.getElem?_mapIdx,
      List.getElem?_eq_getElem (by simpa using h)]
    rfl
  · rw [Composition.scenePlan, jsIndex]
    rw [dif_pos (by simp)]
    rfl

/-- C4 witness: a single segment starting at 5 s for 1 s yields a one-entry
plan at the segment's own timing, whose descriptor is the intro card. -/
theorem graphycs_c4_witness :
    0 < ([(⟨"x", 5, 1, "u"⟩ : Segment)] : List Segment).length ∧
    ((Composition.segmentPlan sampleStoryboard none [⟨"x", 5, 1, "u"⟩]).length = 1 ∧
     (Composition.segmentPlan sampleStoryboard none [⟨"x", 5, 1, "u"⟩])[0]? =
       some { fromFrame := jsRound ((5 : ℚ) * fps),
              durationInFrames := jsRound ((1 : ℚ) * fps),
              audio := "u",
              sceneIndex := min 0 ((Composition.scenePlan sampleStoryboard none).length - 1),
              scene := jsIndex (Composition.scenePlan sampleStoryboard none)
                ((min 0 ((Composition.scenePlan sampleStoryboard none).length - 1) : ℕ) : ℤ) } ∧
     (jsIndex (Composition.scenePlan sampleStoryboard none) 0).map Composition.Scene.kind =
       some Composition.SceneKind.intro) :=
  ⟨by norm_num, graphycs_c4 sampleStoryboard none [⟨"x", 5, 1, "u"⟩] 0 (by norm_num)⟩

/-- C4 counterexample: with one segment starting at 5 s for 1 s, the current
composition's segment-mode plan is a single `Sequence` from frame 150 lasting
30 frames — no scene starts at frame 0 and none lasts `round(2 * fps) = 60`
frames, so no synthetic intro scene exists. -/
theorem graphycs_c4_counterexample :
    (Composition.segmentPlan sampleStoryboard none [⟨"x", 5, 1, "u"⟩]).map
        Composition.SegPlaced.fromFrame = [150] ∧
    (Composition.segmentPlan sampleStoryboard none [⟨"x", 5, 1, "u"⟩]).map
        Composition.SegPlaced.durationInFrames = [30] := by
  constructor <;>
    · simp only [Composition.segmentPlan, List.mapIdx_singleton, List.map_singleton]
      norm_num [jsRound, fps]

/-- C10: the narration segmenter starts its first segment at 0, advances each
next start by the previous duration plus the 0.3 s padding, and therefore
(for non-negative durations) produces segments strictly ordered by start with
pairwise disjoint time intervals. -/
theorem graphycs_c10 (pieces : List AudioSegments.Piece)
    (h : ∀ p ∈ pieces, 0 ≤ p.duration) :
    (∀ s, (AudioSegments.generateSegments pieces).head? = some s → s.start = 0) ∧
    List.Chain' (fun a b => b.start = a.start + a.duration + AudioSegments.padding)
      (AudioSegments.generateSegments pieces) ∧
    AudioSegments.padding = 0.3 ∧
    List.Pairwise (fun a b => a.start < b.start ∧ a.start + a.duration < b.start)
      (AudioSegments.generateSegments pieces) := by
  refine ⟨?_, ?_, rfl, ?_⟩
  · intro s hs
    cases pieces with
    | nil => simp [AudioSegments.generateSegments, AudioSegments.buildSegments] at hs
    | cons p rest =>
      simp only [AudioSegments.generateSegments, AudioSegments.buildSegments,
        List.head?_cons, Option.some.injEq] at hs
      rw [← hs]
  · exact AudioSegments.buildSegments_chain pieces 0
  · exact AudioSegments.buildSegments_pairwise pieces 0 h

/-- C10 witness: two sentences of 1 s and 2 s produce segments at 0 and 1.3
seconds, strictly ordered and non-overlapping. -/
theorem graphycs_c10_witness :
    (∀ p ∈ ([⟨"a", 1, "u"⟩, ⟨"b", 2, "v"⟩] : List AudioSegments.Piece),
      0 ≤ p.duration) ∧
    ((∀ s, (AudioSegments.generateSegments
        [⟨"a", 1, "u"⟩, ⟨"b", 2, "v"⟩]).head? = some s → s.start = 0) ∧
     List.Chain' (fun a b => b.start = a.start + a.duration + AudioSegments.padding)
       (AudioSegments.generateSegments [⟨"a", 1, "u"⟩, ⟨"b", 2, "v"⟩]) ∧
     AudioSegments.padding = 0.3 ∧
     List.Pairwise (fun a b => a.start < b.start ∧ a.start + a.duration < b.start)
       (AudioSegments.generateSegments [⟨"a", 1, "u"⟩, ⟨"b", 2, "v"⟩])) :=
  ⟨by decide, graphycs_c10 [⟨"a", 1, "u"⟩, ⟨"b", 2, "v"⟩] (by decide)⟩

end Graphycs
